import Mathlib

/-!
Verification of the ucontext core of the libinger repository
(`src/ucontext.rs`) against its natural-language specification.

The Rust source is shallowly embedded below.  Machine integers are `Nat`
with explicit `% 2 ^ w` where narrowing matters; fallible paths return
`Except` or a dedicated result type; the mutable, process-wide identity
token registry of the `id` module is threaded as an explicit `IdState`
value.  The `id`, `invar` (Move-Fix-Up) and `volatile` modules are used
by `src/ucontext.rs` but their sources are not part of `src/`; their
definitions below are modelled from the specification's description of
them and are marked as such in their doc comments.
-/

namespace Libinger

/-- Modelled from the spec: the `id` module is not under `src/`.  An
Identity Token is "a process-wide-unique numeric tag" together with a
validity flag shared through a registry (`IdState` below). -/
structure Id where
  tag : Nat
deriving DecidableEq, Repr

/-- Modelled from the spec: the process-wide registry backing the `id`
module.  `next` is the monotonic counter producing fresh tags ("created
alongside a Context"); `dead` records the tags whose validity flag has
been cleared ("a token is valid from creation until explicitly
invalidated; invalidation is irreversible"). -/
structure IdState where
  next : Nat
  dead : List Nat
deriving DecidableEq, Repr

/-- The registry at process start: no tokens created, none invalidated. -/
def IdState.init : IdState := { next := 0, dead := [] }

/-- Modelled from the spec: `Id::new` hands out the next unique tag
(monotonic counter). -/
def IdState.fresh (s : IdState) : Id × IdState :=
  ({ tag := s.next }, { next := s.next + 1, dead := s.dead })

/-- Modelled from the spec: `Id::is_valid` reads the shared validity
flag — the token is valid iff it has not been invalidated. -/
def Id.is_valid (i : Id) (s : IdState) : Bool :=
  ! s.dead.contains i.tag

/-- Modelled from the spec: `Id::invalidate` clears the token's shared
validity flag ("invalidation is irreversible"). -/
def Id.invalidate (i : Id) (s : IdState) : IdState :=
  { next := s.next, dead := i.tag :: s.dead }

/-- Modelled from the spec: `Id::invalidate_subsequent` invalidates
"every token created chronologically after it", i.e. every already
created tag strictly greater than this one. -/
def Id.invalidate_subsequent (i : Id) (s : IdState) : IdState :=
  { next := s.next
    dead := (List.range s.next).filter (fun t => i.tag < t) ++ s.dead }

/-- The offset of the self-referential `fpregs` field inside the raw
`ucontext_t` record.  Modelled from the spec: the record "contains a
pointer field that, at capture time, is initialized by the OS to point
at a sub-region within the same record"; the concrete offset is
platform-owned, any fixed interior offset represents it. -/
def fpregsOffset : Nat := 424

/-- The Raw Context Storage (`libc::ucontext_t`): opaque machine state
plus the fields `src/ucontext.rs` manipulates — the current address of
the record, the embedded self-referential `fpregs` pointer, the
successor link `uc_link` and the stack binding `uc_stack`. -/
structure Ucontext where
  addr : Nat
  fpregs : Nat
  uc_link : Nat
  ss_sp : Nat
  ss_size : Nat
  machine : Nat
deriving DecidableEq, Repr

/-- Modelled from the spec: the Move-Fix-Up operation (`invar` module's
`after_move`, not under `src/`) recomputes the self-referential field
"so it again points at the correct offset within the record's current
address". -/
def Ucontext.after_move (u : Ucontext) : Ucontext :=
  { u with fpregs := u.addr + fpregsOffset }

/-- The optional ownership block of a Construction-built Context:
the backing stack and the Identity Token of the designated successor
(`struct Persistent` in the source; the byte buffer is abstracted to
its address and length). -/
structure Persistent where
  stackAddr : Nat
  stackLen : Nat
  successor : Id
deriving DecidableEq, Repr

/-- `struct Context`: an Identity Token, a Raw Context Storage, and an
optional ownership block. -/
structure Context where
  id : Id
  context : Ucontext
  persistent : Option Persistent
deriving DecidableEq, Repr

/-- `struct HandlerContext`: a bare Raw Context Storage supplied
asynchronously by the OS, with no Identity Token. -/
structure HandlerContext where
  raw : Ucontext
deriving DecidableEq, Repr

/-- A Rust panic, modelled as an error value distinct from every normal
return. -/
inductive RustPanic
  | unimplementedMacro
  | guardAlreadyInvalidated
deriving DecidableEq, Repr

/-- `Context::swap` exactly as written in `src/ucontext.rs` lines
163-165: its body is the `unimplemented` panic macro, so every call
panics and no exchange of the two storages is performed. -/
def Context.swap (this : Context) (other : HandlerContext) :
    Except RustPanic (Context × HandlerContext) :=
  Except.error RustPanic.unimplementedMacro

/-- The outcome of `setcontext`.  The Rust function returns
`Option<Error>`: `None` (here `noop`) for a null or invalid target,
`Some(error)` (here `osError`) when the OS transfer call fails, and it
does not return at all when the OS call succeeds (here `transferred`,
carrying the storage handed to the OS); a tripped `debug_assert` is the
distinct fatal outcome `assertionFailure`. -/
inductive SetcontextResult
  | noop
  | assertionFailure
  | transferred (target : Ucontext)
  | osError (errno : Nat)
deriving DecidableEq, Repr

/-- The internal consistency check of `setcontext` (the `debug_assert`
argument): if the Context owns a successor link, that successor's token
must still be valid; a Context with no ownership block passes
trivially. -/
def successorCheck (c : Context) (s : IdState) : Bool :=
  match c.persistent with
  | some p => p.successor.is_valid s
  | none => true

/-- `setcontext` from `src/ucontext.rs` lines 114-139.  `os` is the OS
transfer call: `none` means it succeeded (control switched, the call
never returns), `some errno` means it failed with that diagnostic.
Faithful to the source order: null check, token-validity check,
`invalidate_subsequent`, the successor `debug_assert`, `after_move`,
then the OS call. -/
def setcontext (os : Ucontext → Option Nat) (continuation : Option Context)
    (s : IdState) : SetcontextResult × IdState :=
  match continuation with
  | none => (SetcontextResult.noop, s)
  | some c =>
    if c.id.is_valid s then
      let s' := c.id.invalidate_subsequent s
      if successorCheck c s' then
        match os c.context.after_move with
        | none => (SetcontextResult.transferred c.context.after_move, s')
        | some errno => (SetcontextResult.osError errno, s')
      else
        (SetcontextResult.assertionFailure, s')
    else
      (SetcontextResult.noop, s)

/-- How many times each of the two callbacks of `getcontext` ran. -/
structure CallCounts where
  scopeCalls : Nat
  checkpointCalls : Nat
deriving DecidableEq, Repr

/-- Pointwise sum of callback counts. -/
def CallCounts.add (a b : CallCounts) : CallCounts :=
  { scopeCalls := a.scopeCalls + b.scopeCalls
    checkpointCalls := a.checkpointCalls + b.checkpointCalls }

/-- One execution of the code region of `getcontext` that follows the
OS capture call (`src/ucontext.rs` lines 38-51), parameterised by the
value the volatile liveness flag reads on this pass.  When the flag
reads true the flag is written false and the one-shot `scope` callback
runs with the captured Context; when it reads false the Context and the
`scope` closure are forgotten (discarded uninvoked) and the repeatable
`checkpoint` callback runs.  Either way the epilogue then invalidates
the capture's guard token (line 48). -/
def getcontextReturnPath {T : Type} (unused : Bool) (this : Context)
    (scope : Context → T) (checkpoint : Unit → T) (s : IdState) :
    T × CallCounts × IdState :=
  if unused then
    let res := scope this
    (res, { scopeCalls := 1, checkpointCalls := 0 }, this.id.invalidate s)
  else
    let res := checkpoint ()
    (res, { scopeCalls := 0, checkpointCalls := 1 }, this.id.invalidate s)

/-- The executions of the post-capture region reached via a Transfer
into the captured Context.  On every such pass the volatile flag reads
false, because the first pass wrote false into the (persistent) stack
slot before any Transfer could occur. -/
def getcontextResumedRuns {T : Type} (this : Context) (scope : Context → T)
    (checkpoint : Unit → T) : Nat → IdState → List (Except Nat T) × CallCounts × IdState
  | 0, s => ([], { scopeCalls := 0, checkpointCalls := 0 }, s)
  | n + 1, s =>
    let pass := getcontextReturnPath false this scope checkpoint s
    let rest := getcontextResumedRuns this scope checkpoint n pass.2.2
    (Except.ok pass.1 :: rest.1, CallCounts.add pass.2.1 rest.2.1, rest.2.2)

/-- All physical executions of the capture site of one `getcontext`
call (`src/ucontext.rs` lines 24-52): the token is created, the OS
capture call runs (`osCapture = some errno` models its failure,
`captured` is the storage it populates on success), then the first pass
runs with the liveness flag reading true, followed by one further pass
(flag false) per Transfer into the captured Context.  The result lists
the value each pass returns to `getcontext`'s caller, with the total
callback counts and the final token registry. -/
def getcontextRun {T : Type} (osCapture : Option Nat) (captured : Ucontext)
    (nResumed : Nat) (scope : Context → T) (checkpoint : Unit → T)
    (s : IdState) : List (Except Nat T) × CallCounts × IdState :=
  let fr := s.fresh
  let this : Context := { id := fr.1, context := captured, persistent := none }
  match osCapture with
  | some errno =>
    ([Except.error errno], { scopeCalls := 0, checkpointCalls := 0 }, fr.2)
  | none =>
    let first := getcontextReturnPath true this scope checkpoint fr.2
    let rest := getcontextResumedRuns this scope checkpoint nResumed first.2.2
    (Except.ok first.1 :: rest.1, CallCounts.add first.2.1 rest.2.1, rest.2.2)

/-- Narrowing a machine word to a C `unsigned int` argument slot: the
OS construction call accepts only 32-bit integer arguments, so a wider
value is truncated to its low 32 bits. -/
def cuint (x : Nat) : Nat := x % 2 ^ 32

/-- The reassembly performed by `trampoline` (`src/ucontext.rs` lines
58-64): `lower as usize | ((upper as usize) << 32)`. -/
def trampoline (lower upper : Nat) : Nat :=
  lower ||| (upper <<< 32)

/-- The two narrow arguments `makecontext` hands to the OS construction
call for the entry function pointer `call` (`src/ucontext.rs` lines
91-94): `call` and `call >> 32`, each truncated to the `c_uint`
argument width by the call. -/
def makecontextEntryArgs (call : Nat) : Nat × Nat :=
  (cuint call, cuint (call >>> 32))

/-- One arrival at the code following `makecontext`'s inner `getcontext`
call (`src/ucontext.rs` lines 102-104): the capture site's epilogue has
just invalidated the successor token (line 48), and then
`guard.take().expect(..)` either consumes the guard — invalidating the
constructed Context's token exactly once — or, when the guard was
already consumed by an earlier arrival, panics. -/
def makecontextReturnOnce (successor : Id) (guard : Option Id)
    (s : IdState) : Except RustPanic (Option Id × IdState) :=
  let s' := successor.invalidate s
  match guard with
  | some g => Except.ok (none, g.invalidate s')
  | none => Except.error RustPanic.guardAlreadyInvalidated

/-- Iterated arrivals at `makecontext`'s successor path. -/
def makecontextReturnsLoop (successor : Id) :
    Nat → Option Id → IdState → Except RustPanic (Option Id × IdState)
  | 0, guard, s => Except.ok (guard, s)
  | n + 1, guard, s =>
    match makecontextReturnOnce successor guard s with
    | Except.error p => Except.error p
    | Except.ok gs => makecontextReturnsLoop successor n gs.1 gs.2

/-- `makecontext` (`src/ucontext.rs` lines 54-107) as far as its token
and guard bookkeeping is concerned, with the OS calls succeeding and
the gate callback returning normally.  The outer `getcontext` creates
the successor token, its scope creates the constructed Context's token
and stores it in the guard; the successor path (checkpoint branch plus
the guard consumption of line 104) then runs once for the normal return
and once more per fall-through of the constructed Context into the
successor.  The result is `ok` with the final registry, or the panic. -/
def makecontextRun (nFallthrough : Nat) (s : IdState) :
    Except RustPanic IdState :=
  let fr := s.fresh
  let successor := fr.1
  let fr2 := fr.2.fresh
  let thisId := fr2.1
  let s2 := fr2.2
  match makecontextReturnsLoop successor (1 + nFallthrough) (some thisId) s2 with
  | Except.error p => Except.error p
  | Except.ok gs => Except.ok gs.2

/-! ### Shared helper lemmas -/

/-- A null continuation is rejected before anything else happens. -/
lemma setcontext_none_noop (os : Ucontext → Option Nat) (s : IdState) :
    setcontext os none s = (SetcontextResult.noop, s) := rfl

/-- An invalid token is rejected before anything else happens. -/
lemma setcontext_invalid_noop (os : Ucontext → Option Nat) (c : Context)
    (s : IdState) (h : c.id.is_valid s = false) :
    setcontext os (some c) s = (SetcontextResult.noop, s) := by
  simp [setcontext, h]

/-- A token that is valid stays valid across its own
`invalidate_subsequent`: only strictly later tags are added to the dead
list. -/
lemma is_valid_invalidate_subsequent_self (i : Id) (s : IdState)
    (h : i.is_valid s = true) :
    i.is_valid (i.invalidate_subsequent s) = true := by
  simp only [Id.is_valid, Id.invalidate_subsequent, List.contains,
    List.elem_eq_mem, Bool.not_eq_true', decide_eq_false_iff_not,
    List.mem_append, List.mem_filter, List.mem_range] at h ⊢
  intro hmem
  rcases hmem with hfil | hdead
  · exact absurd hfil.2 (by simp)
  · exact h hdead

/-- After `invalidate_subsequent`, every already created strictly later
tag is invalid. -/
lemma is_valid_invalidate_subsequent_of_lt (i : Id) (s : IdState) (j : Nat)
    (hlt : i.tag < j) (hcreated : j < s.next) :
    Id.is_valid { tag := j } (i.invalidate_subsequent s) = false := by
  simp only [Id.is_valid, Id.invalidate_subsequent, List.contains,
    List.elem_eq_mem, Bool.not_eq_false', decide_eq_true_iff,
    List.mem_append, List.mem_filter, List.mem_range]
  exact Or.inl ⟨hcreated, by simpa using hlt⟩

/-- On a valid target whose successor check passes, `setcontext`
reduces to the OS transfer call applied to the fixed-up storage. -/
lemma setcontext_valid_eq (os : Ucontext → Option Nat) (c : Context)
    (s : IdState) (hv : c.id.is_valid s = true)
    (hch : successorCheck c (c.id.invalidate_subsequent s) = true) :
    setcontext os (some c) s =
      ((match os c.context.after_move with
        | none => SetcontextResult.transferred c.context.after_move
        | some errno => SetcontextResult.osError errno),
       c.id.invalidate_subsequent s) := by
  simp only [setcontext, hv, if_true, hch]
  cases os c.context.after_move <;> rfl

/-- A `transferred` outcome forces the target token to have been valid
and the successor check to have passed, and pins the final registry. -/
lemma setcontext_transferred_inv (os : Ucontext → Option Nat) (c : Context)
    (s : IdState) (t : Ucontext)
    (h : (setcontext os (some c) s).1 = SetcontextResult.transferred t) :
    c.id.is_valid s = true ∧
      (setcontext os (some c) s).2 = c.id.invalidate_subsequent s := by
  by_cases hv : c.id.is_valid s
  · refine ⟨hv, ?_⟩
    by_cases hch : successorCheck c (c.id.invalidate_subsequent s)
    · rw [setcontext_valid_eq os c s hv hch]
    · simp [setcontext, hv, hch]
  · rw [setcontext_invalid_noop os c s (by simpa using hv)] at h
    exact absurd h (by simp)

/-! ### Concrete fixtures used by witnesses and counterexamples -/

/-- An OS oracle whose transfer call always succeeds. -/
def osOk : Ucontext → Option Nat := fun _ => none

/-- An OS oracle whose transfer call always fails with errno 42. -/
def osFail42 : Ucontext → Option Nat := fun _ => some 42

/-- A concrete raw storage value. -/
def uc0 : Ucontext :=
  { addr := 4096, fpregs := 0, uc_link := 0, ss_sp := 0, ss_size := 0
    machine := 7 }

/-- A registry in which token 0 has been created and invalidated. -/
def deadState : IdState := { next := 1, dead := [0] }

/-- A Context whose token is invalid in `deadState`. -/
def deadCtx : Context :=
  { id := { tag := 0 }, context := uc0, persistent := none }

/-! ### Claim theorems -/

/-- C2: `setcontext` on a null pointer, or on a Context whose Identity
Token is invalid, returns the no-op failure `None` — never an OS error,
a panic outcome, or a transfer — and on this path the registry is
unchanged (no token invalidated); the result does not depend on the OS
oracle at all, so the OS transfer call (and the Move-Fix-Up preceding
it) is never reached. -/
theorem C2_setcontext_rejects_null_and_invalid :
    (∀ (os : Ucontext → Option Nat) (s : IdState),
        setcontext os none s = (SetcontextResult.noop, s)) ∧
    (∀ (os : Ucontext → Option Nat) (c : Context) (s : IdState),
        c.id.is_valid s = false →
        setcontext os (some c) s = (SetcontextResult.noop, s)) :=
  ⟨setcontext_none_noop, setcontext_invalid_noop⟩

/-- Witness for C2 at a concrete invalid target. -/
theorem C2_setcontext_rejects_null_and_invalid_witness :
    setcontext osOk (some deadCtx) deadState =
      (SetcontextResult.noop, deadState) :=
  C2_setcontext_rejects_null_and_invalid.2 osOk deadCtx deadState (by decide)

/-- C6 (code bug): `Context::swap` as written is the `unimplemented`
panic macro, so for every pair of storages it panics instead of
exchanging their contents and fixing up the self-referential fields —
contradicting the in-file test `context_swapinvariant`, which asserts
the post-swap exchange. -/
theorem C6_swap_is_unimplemented :
    ∀ (a : Context) (b : HandlerContext),
      Context.swap a b = Except.error RustPanic.unimplementedMacro :=
  fun _ _ => rfl

/-- C9: if the OS capture call inside `getcontext` fails with `errno`,
the call returns exactly one result, `Err(errno)`; neither the one-shot
scope callback nor the repeatable checkpoint callback is invoked (both
counts are zero), and no Context reaches the caller (the error carries
none; the freshly created token is merely left behind in the
registry). -/
theorem C9_getcontext_os_failure {T : Type} :
    ∀ (captured : Ucontext) (n : Nat) (scope : Context → T)
      (checkpoint : Unit → T) (s : IdState) (errno : Nat),
      getcontextRun (some errno) captured n scope checkpoint s =
        ([Except.error errno], { scopeCalls := 0, checkpointCalls := 0 },
          { next := s.next + 1, dead := s.dead }) :=
  fun _ _ _ _ _ _ => rfl

/-- A registry holding exactly one live token, tag 0. -/
def oneState : IdState := { next := 1, dead := [] }

/-- A registry holding two live tokens, tags 0 and 1. -/
def twoState : IdState := { next := 2, dead := [] }

/-- A plain captured Context with the live token 0. -/
def freshCtx : Context :=
  { id := { tag := 0 }, context := uc0, persistent := none }

/-- A registry where token 0 (a successor) has been invalidated while
token 1 is still live. -/
def badSuccState : IdState := { next := 2, dead := [0] }

/-- A Construction-built Context whose own token 1 is live but whose
successor token 0 is already invalid in `badSuccState`. -/
def badSuccCtx : Context :=
  { id := { tag := 1 }, context := uc0
    persistent := some { stackAddr := 8192, stackLen := 4096
                         successor := { tag := 0 } } }

/-- C10: on a valid target, `setcontext` checks the internal invariant
that an owned successor link's token is still valid: the fatal
assertion outcome occurs exactly when that check fails, and a Context
with no ownership block passes the check trivially (so the fatal
outcome is unreachable for it). -/
theorem C10_setcontext_successor_assert :
    ∀ (os : Ucontext → Option Nat) (c : Context) (s : IdState),
      c.id.is_valid s = true →
      (((setcontext os (some c) s).1 = SetcontextResult.assertionFailure ↔
          successorCheck c (c.id.invalidate_subsequent s) = false) ∧
        (c.persistent = none →
          successorCheck c (c.id.invalidate_subsequent s) = true)) := by
  intro os c s hv
  refine ⟨?_, fun hp => by simp [successorCheck, hp]⟩
  cases hch : successorCheck c (c.id.invalidate_subsequent s) with
  | false => simp [setcontext, hv, hch]
  | true =>
    rw [setcontext_valid_eq os c s hv hch]
    cases os c.context.after_move <;> simp

/-- Witness for C10: a valid Context with an already invalid successor
is driven to the fatal assertion outcome. -/
theorem C10_setcontext_successor_assert_witness :
    (setcontext osOk (some badSuccCtx) badSuccState).1 =
      SetcontextResult.assertionFailure :=
  ((C10_setcontext_successor_assert osOk badSuccCtx badSuccState
      (by decide)).1).mpr (by decide)

/-- C8: on every transfer path that passes the null and token checks
(and the successor assertion), `setcontext` hands the OS transfer call
exactly the Move-Fixed-Up storage `after_move`; when the OS call
succeeds the outcome is the non-returning `transferred` (carrying that
fixed-up storage), and the returning `osError` outcome occurs only when
the OS call failed with that errno. -/
theorem C8_setcontext_transfer_path :
    ∀ (os : Ucontext → Option Nat) (c : Context) (s : IdState),
      c.id.is_valid s = true →
      successorCheck c (c.id.invalidate_subsequent s) = true →
      (setcontext os (some c) s =
        ((match os c.context.after_move with
          | none => SetcontextResult.transferred c.context.after_move
          | some errno => SetcontextResult.osError errno),
          c.id.invalidate_subsequent s) ∧
        (os c.context.after_move = none →
          (setcontext os (some c) s).1 =
            SetcontextResult.transferred c.context.after_move) ∧
        (∀ errno : Nat,
          (setcontext os (some c) s).1 = SetcontextResult.osError errno →
          os c.context.after_move = some errno)) := by
  intro os c s hv hch
  have heq := setcontext_valid_eq os c s hv hch
  refine ⟨heq, ?_, ?_⟩
  · intro hos
    rw [heq]
    simp [hos]
  · intro errno h
    rw [heq] at h
    revert h
    cases hos : os c.context.after_move <;> simp_all

/-- Witness for C8: with an OS oracle that fails with errno 42, the
call returns the OS error 42. -/
theorem C8_setcontext_transfer_path_witness :
    (setcontext osFail42 (some freshCtx) oneState).1 =
      SetcontextResult.osError 42 := by
  have h := (C8_setcontext_transfer_path osFail42 freshCtx oneState
    (by decide) (by decide)).1
  rw [h]
  rfl

/-- C4: every successful transfer (outcome `transferred`) leaves every
token created chronologically after the target's token — strictly
greater tag, already created — invalid in the registry `setcontext`
produced before switching execution. -/
theorem C4_transfer_invalidates_subsequent :
    ∀ (os : Ucontext → Option Nat) (c : Context) (s : IdState) (t : Ucontext),
      (setcontext os (some c) s).1 = SetcontextResult.transferred t →
      ∀ j : Nat, c.id.tag < j → j < s.next →
        Id.is_valid { tag := j } ((setcontext os (some c) s).2) = false := by
  intro os c s t h j hlt hcreated
  obtain ⟨hv, hstate⟩ := setcontext_transferred_inv os c s t h
  rw [hstate]
  exact is_valid_invalidate_subsequent_of_lt c.id s j hlt hcreated

/-- Witness for C4: transferring into the Context with token 0 leaves
the later token 1 invalid. -/
theorem C4_transfer_invalidates_subsequent_witness :
    Id.is_valid { tag := 1 } ((setcontext osOk (some freshCtx) twoState).2) =
      false :=
  C4_transfer_invalidates_subsequent osOk freshCtx twoState uc0.after_move
    (by decide) 1 (by decide) (by decide)

/-- C5: reaching `makecontext`'s successor path once (the single normal
pass) returns `Ok` with the guard consumed exactly once — the
constructed Context's token (tag `s.next + 1`) is invalidated exactly
once, after the successor token (tag `s.next`) — while reaching it a
second time (any fall-through into the successor after the normal
return) panics with the guard-already-invalidated message instead of
returning a value. -/
theorem C5_makecontext_guard_single_use :
    ∀ s : IdState,
      (makecontextRun 0 s =
          Except.ok { next := s.next + 2
                      dead := (s.next + 1) :: s.next :: s.dead } ∧
        ((s.next + 1) ∉ s.dead →
          ((s.next + 1) :: s.next :: s.dead).count (s.next + 1) = 1)) ∧
      (∀ n : Nat,
        makecontextRun (n + 1) s =
          Except.error RustPanic.guardAlreadyInvalidated) := by
  intro s
  refine ⟨⟨rfl, ?_⟩, ?_⟩
  · intro h
    have h0 : s.dead.count (s.next + 1) = 0 := List.count_eq_zero.mpr h
    simp [List.count_cons, h0]
  · intro n
    simp only [makecontextRun]
    rw [Nat.add_comm 1 (n + 1)]
    simp [makecontextReturnsLoop, makecontextReturnOnce]

/-- Witness for C5: from the empty registry, the single normal pass
succeeds with both tokens consumed once, and any repeat pass panics. -/
theorem C5_makecontext_guard_single_use_witness :
    makecontextRun 0 IdState.init =
        Except.ok { next := 2, dead := [1, 0] } ∧
      ([1, 0] : List Nat).count 1 = 1 ∧
      makecontextRun 1 IdState.init =
        Except.error RustPanic.guardAlreadyInvalidated := by
  refine ⟨(C5_makecontext_guard_single_use IdState.init).1.1, ?_,
    (C5_makecontext_guard_single_use IdState.init).2 0⟩
  exact (C5_makecontext_guard_single_use IdState.init).1.2 (by decide)

/-- The passes of the capture site reached via Transfer return the
checkpoint results and count one checkpoint invocation each. -/
lemma getcontextResumedRuns_spec {T : Type} (this : Context)
    (scope : Context → T) (checkpoint : Unit → T) :
    ∀ (n : Nat) (s : IdState),
      (getcontextResumedRuns this scope checkpoint n s).1 =
        List.replicate n (Except.ok (checkpoint ())) ∧
      (getcontextResumedRuns this scope checkpoint n s).2.1 =
        { scopeCalls := 0, checkpointCalls := n } := by
  intro n
  induction n with
  | zero => exact fun s => ⟨rfl, rfl⟩
  | succ n ih =>
    intro s
    have ihs := ih (this.id.invalidate s)
    constructor
    · simp [getcontextResumedRuns, getcontextReturnPath, ihs.1,
        List.replicate]
    · simp only [getcontextResumedRuns, getcontextReturnPath,
        CallCounts.add, if_neg Bool.false_ne_true, ihs.2]
      congr 1
      omega

/-- C1: when the OS capture call succeeds, each physical execution of
the capture site invokes exactly one of the two callbacks (per-pass
counts are one-scope/zero-checkpoint when the volatile flag reads true
and zero-scope/one-checkpoint when it reads false); across the whole
run the one-shot scope callback runs exactly once — on the first pass,
with the freshly captured Context — and the repeatable checkpoint
callback runs exactly once per Transfer-reached pass; every pass
returns its callback's result wrapped in `Ok`. -/
theorem C1_getcontext_exactly_one_callback {T : Type} :
    ∀ (captured : Ucontext) (n : Nat) (scope : Context → T)
      (checkpoint : Unit → T) (s : IdState),
      (getcontextRun none captured n scope checkpoint s).1 =
          Except.ok (scope { id := { tag := s.next }, context := captured
                             persistent := none }) ::
            List.replicate n (Except.ok (checkpoint ())) ∧
      (getcontextRun none captured n scope checkpoint s).2.1 =
          { scopeCalls := 1, checkpointCalls := n } ∧
      (∀ (unused : Bool) (this : Context) (s2 : IdState),
        (getcontextReturnPath unused this scope checkpoint s2).2.1 =
          if unused then { scopeCalls := 1, checkpointCalls := 0 }
          else { scopeCalls := 0, checkpointCalls := 1 }) := by
  intro captured n scope checkpoint s
  have hres := getcontextResumedRuns_spec
    (T := T) { id := { tag := s.next }, context := captured
               persistent := none } scope checkpoint n
  refine ⟨?_, ?_, ?_⟩
  · simp [getcontextRun, IdState.fresh, getcontextReturnPath,
      (hres _).1]
  · simp [getcontextRun, IdState.fresh, getcontextReturnPath,
      (hres _).2, CallCounts.add]
  · intro unused this s2
    cases unused <;> rfl

/-- C7: splitting an entry pointer below `2 ^ 64` into the two narrow
`c_uint` arguments `makecontext` passes to the OS construction call and
reassembling them with `trampoline`'s `lower | (upper << 32)` recovers
exactly the original pointer, so the trampoline invokes exactly the
supplied entry function. -/
theorem C7_entry_pointer_roundtrip :
    ∀ call : Nat, call < 2 ^ 64 →
      trampoline (makecontextEntryArgs call).1 (makecontextEntryArgs call).2 =
        call := by
  intro call h
  apply Nat.eq_of_testBit_eq
  intro i
  simp only [trampoline, makecontextEntryArgs, cuint, Nat.testBit_lor,
    Nat.testBit_shiftLeft, Nat.testBit_mod_two_pow, Nat.testBit_shiftRight]
  by_cases h32 : i < 32
  · have hge : ¬ (i ≥ 32) := by omega
    simp [h32, hge]
  · by_cases h64 : i < 64
    · have hge : i ≥ 32 := by omega
      have hsub : i - 32 < 32 := by omega
      have harith : 32 + (i - 32) = i := by omega
      simp [h32, hge, hsub, harith]
    · have hbig : call.testBit i = false :=
        Nat.testBit_lt_two_pow
          (lt_of_lt_of_le h (Nat.pow_le_pow_right (by norm_num) (by omega)))
      have hsub : ¬ (i - 32 < 32) := by omega
      simp [h32, hsub, hbig]

/-- Witness for C7 at the concrete pointer 0x0123456789abcdef. -/
theorem C7_entry_pointer_roundtrip_witness :
    trampoline (makecontextEntryArgs 81985529216486895).1
        (makecontextEntryArgs 81985529216486895).2 = 81985529216486895 :=
  C7_entry_pointer_roundtrip 81985529216486895 (by norm_num)

/-- C3 counterexample: starting from a registry with the single live
token 0 (the state right after a capture), a transfer into that
capture's Context succeeds while leaving the token still valid — so the
token is not invalidated immediately before a successful Transfer — and
a second transfer into the very same Context from the resulting state
succeeds as well, so a Context can be transferred-to twice along one
execution path (the consuming invalidation only happens later, in the
resumed capture site's epilogue). -/
theorem C3_counterexample_token_valid_after_transfer :
    (setcontext osOk (some freshCtx) oneState).1 =
        SetcontextResult.transferred uc0.after_move ∧
      Id.is_valid { tag := 0 } (setcontext osOk (some freshCtx) oneState).2 =
        true ∧
      (setcontext osOk (some freshCtx)
          (setcontext osOk (some freshCtx) oneState).2).1 =
        SetcontextResult.transferred uc0.after_move := by
  decide

/-- C3 (amended): every Identity Token created by a capture is
invalidated by the capture site's own epilogue — on both branches the
registry produced by a pass is exactly `invalidate` applied after the
branch's callback returned, so the two invalidation moments are
immediately after the one-shot scope callback returns normally and
immediately after the checkpoint callback returns on a Transfer-reached
pass; the invalidation is a single consumption (the tag is recorded
once and the token is invalid afterwards); a successful Transfer itself
leaves the target's own token valid (it invalidates only strictly later
tokens); and once the token is invalid every further Transfer into the
Context is the no-op failure. -/
theorem C3_amended_invalidated_once_at_epilogue :
    (∀ (T : Type) (this : Context) (scope : Context → T)
        (checkpoint : Unit → T) (s : IdState) (unused : Bool),
      (getcontextReturnPath unused this scope checkpoint s).2.2 =
        this.id.invalidate s) ∧
    (∀ (i : Id) (s : IdState), i.tag ∉ s.dead →
      (i.invalidate s).dead.count i.tag = 1 ∧
        i.is_valid (i.invalidate s) = false) ∧
    (∀ (os : Ucontext → Option Nat) (c : Context) (s : IdState)
        (t : Ucontext),
      (setcontext os (some c) s).1 = SetcontextResult.transferred t →
      c.id.is_valid ((setcontext os (some c) s).2) = true) ∧
    (∀ (os : Ucontext → Option Nat) (c : Context) (s : IdState),
      c.id.is_valid s = false →
      setcontext os (some c) s = (SetcontextResult.noop, s)) := by
  refine ⟨?_, ?_, ?_, setcontext_invalid_noop⟩
  · intro T this scope checkpoint s unused
    cases unused <;> rfl
  · intro i s h
    constructor
    · have h0 : s.dead.count i.tag = 0 := List.count_eq_zero.mpr h
      simp [Id.invalidate, List.count_cons, h0]
    · simp [Id.is_valid, Id.invalidate, List.contains, List.elem_eq_mem]
  · intro os c s t h
    obtain ⟨hv, hstate⟩ := setcontext_transferred_inv os c s t h
    rw [hstate]
    exact is_valid_invalidate_subsequent_self c.id s hv

/-- Witness for the amended C3 at concrete inputs: consuming token 0
once, a transfer that leaves the target token valid, and a no-op
transfer into an already invalid Context. -/
theorem C3_amended_invalidated_once_at_epilogue_witness :
    ((Id.invalidate { tag := 0 } oneState).dead.count 0 = 1 ∧
        Id.is_valid { tag := 0 } (Id.invalidate { tag := 0 } oneState) =
          false) ∧
      Id.is_valid { tag := 0 }
          ((setcontext osOk (some freshCtx) oneState).2) = true ∧
      setcontext osOk (some deadCtx) deadState =
        (SetcontextResult.noop, deadState) :=
  ⟨C3_amended_invalidated_once_at_epilogue.2.1 { tag := 0 } oneState
      (by decide),
    C3_amended_invalidated_once_at_epilogue.2.2.1 osOk freshCtx oneState
      uc0.after_move (by decide),
    C3_amended_invalidated_once_at_epilogue.2.2.2 osOk deadCtx deadState
      (by decide)⟩

end Libinger
